import Mathlib

/-
  Verification development for the ST-BasicSpotify repository.

  Shallow embedding of:
  - src/mpris/index.mjs: the playerctl bridge client, getPlayerState, and the
    HTTP routes the plugin registers (control routes and the loop route);
  - src/unnamed/part_000 (the browser extension script): the token manager
    (refreshAccessToken, getValidToken), the dual-backend fetchPlayerState
    (fetchMprisState and the remote Spotify path), the progress computation of
    updatePlayerUI, and the polling scheduler (startPolling, stopPolling).

  External effects (subprocess output, HTTP responses, JSON parse outcomes,
  the timer registry) are passed in explicitly as values; machine numbers are
  Int, Nat and Rat; JS null is Option.none; functions that the source lets
  throw and catch internally are total here, with the caught branch modeled
  as the value the catch handler returns.
-/

-- ===========================================================================
-- JS string and number helpers
-- ===========================================================================

/-- JS s || d for strings: the empty string is falsy, every other string is
    truthy. -/
def strOr (s d : String) : String := if s = "" then d else s

/-- JS x || d where x is a nullable string (the result of a playerctl call):
    null and the empty string are both falsy. -/
def jsOrOpt (o : Option String) (d : String) : String :=
  match o with
  | none => d
  | some s => strOr s d

/-- Numeric value of a list of decimal digit characters. -/
def digitsVal (cs : List Char) : Nat :=
  cs.foldl (fun a c => a * 10 + (c.toNat - 48)) 0

/-- Split a character list into its longest leading run of decimal digits and
    the remainder. -/
def takeDigits : List Char → List Char × List Char
  | [] => ([], [])
  | c :: rest =>
    if c.isDigit then
      let p := takeDigits rest
      (c :: p.1, p.2)
    else ([], c :: rest)

/-- Model of JS parseFloat restricted to the decimal strings the bridge emits
    (digits, optionally followed by a dot and digits, with trailing garbage
    ignored). On a string with no leading digits JS yields NaN; none of the
    verified claims evaluates that branch, and this model returns 0 there. -/
def jsParseFloat (s : String) : ℚ :=
  let p := takeDigits s.toList
  let intPart : ℚ := (digitsVal p.1 : ℚ)
  match p.2 with
  | '.' :: frac =>
    let f := takeDigits frac
    intPart + (digitsVal f.1 : ℚ) / ((10 : ℚ) ^ f.1.length)
  | _ => intPart

/-- Model of JS parseInt with radix 10 on the digit strings the bridge emits;
    returns 0 where JS would yield NaN (no leading digits). -/
def jsParseInt (s : String) : Nat :=
  digitsVal (takeDigits s.toList).1

-- ===========================================================================
-- src/mpris/index.mjs: bridge client and getPlayerState
-- ===========================================================================

/-- The JSON object the structured metadata format query encodes. All fields
    are strings in the format the code requests; in the per-field fallback the
    object carries no length property, modeled by the empty string, which the
    later || guard treats exactly like an absent field. -/
structure ParsedMeta where
  title : String
  artist : String
  album : String
  artUrl : String
  length : String
deriving DecidableEq, Repr

/-- One round of bridge interaction as getPlayerState sees it: the trimmed
    stdout of each playerctl invocation (none when the process exits non-zero,
    is absent, or no player is running - the playerctl wrapper catches all of
    these and returns null), plus the outcome JSON.parse would produce on the
    structured metadata output. -/
structure BridgeEnv where
  metadataFormatOut : Option String
  parseMeta : String → Option ParsedMeta
  titleOut : Option String
  artistOut : Option String
  albumOut : Option String
  artUrlOut : Option String
  statusOut : Option String
  positionOut : Option String
  shuffleOut : Option String
  loopOut : Option String

/-- The state object getPlayerState answers with. -/
structure MprisState where
  available : Bool
  playing : Bool
  title : String
  artist : String
  album : String
  artUrl : String
  progress_ms : Int
  duration_ms : Nat
  shuffle : Bool
  loop : String
deriving DecidableEq, Repr

/-- The object returned when the metadata query yields no output. The JS
    literal carries only playing:false and available:false; the remaining
    fields are absent in JS and never read, modeled here by neutral
    defaults. -/
def unavailableState : MprisState :=
  { available := false, playing := false, title := "", artist := "", album := ""
    artUrl := "", progress_ms := 0, duration_ms := 0, shuffle := false, loop := "" }

/-- getPlayerState of src/mpris/index.mjs. The whole body sits in a try/catch
    whose handler returns an available:false object; nothing in this pure
    model throws, so the handler branch is unreachable here and the function
    is total by construction. JS truthiness of the metadata output (null or
    the empty string are falsy) gates the short-circuit. -/
def getPlayerState (env : BridgeEnv) : MprisState :=
  match env.metadataFormatOut with
  | none => unavailableState
  | some raw =>
    if raw = "" then unavailableState
    else
      let isPlaying := env.statusOut == some "Playing"
      let metadata : ParsedMeta :=
        match env.parseMeta raw with
        | some m => m
        | none =>
          { title := jsOrOpt env.titleOut "Unknown"
            artist := jsOrOpt env.artistOut "Unknown"
            album := jsOrOpt env.albumOut ""
            artUrl := jsOrOpt env.artUrlOut ""
            length := "" }
      let positionSec : ℚ := jsParseFloat (jsOrOpt env.positionOut "0")
      let lengthUs : Nat := jsParseInt (strOr metadata.length "0")
      { available := true
        playing := isPlaying
        title := strOr metadata.title "Unknown"
        artist := strOr metadata.artist "Unknown"
        album := strOr metadata.album ""
        artUrl := strOr metadata.artUrl ""
        progress_ms := ⌊positionSec * 1000⌋
        duration_ms := lengthUs / 1000
        shuffle := env.shuffleOut == some "On"
        loop := jsOrOpt env.loopOut "None" }

-- ===========================================================================
-- src/mpris/index.mjs: HTTP routes registered by init
-- ===========================================================================

/-- The six parameterless POST control routes of the plugin surface. -/
inductive ControlEndpoint where
  | playPause
  | play
  | pause
  | next
  | previous
  | shuffleRoute
deriving DecidableEq, Repr

/-- The argument string each control route passes to playerctl. -/
def endpointCommand : ControlEndpoint → String
  | .playPause => "play-pause"
  | .play => "play"
  | .pause => "pause"
  | .next => "next"
  | .previous => "previous"
  | .shuffleRoute => "shuffle Toggle"

/-- The JSON reply of a control route. -/
structure ControlResponse where
  status : Nat
  success : Bool
deriving DecidableEq, Repr

/-- Each control route awaits the playerctl call (whose result is null when
    the tool is absent or no player runs) and discards that result, then
    unconditionally answers HTTP 200 with success true; the pair records the
    command issued and the reply sent. -/
def controlRoute (e : ControlEndpoint) (_bridgeOutcome : Option String) :
    String × ControlResponse :=
  (endpointCommand e, { status := 200, success := true })

/-- The fixed mode list of the loop route. -/
def loopModes : List String := ["None", "Track", "Playlist"]

/-- JS Array.prototype.indexOf on a string list: index of the first
    occurrence, -1 when absent. -/
def jsIndexOfAux : List String → String → Int → Int
  | [], _, _ => -1
  | a :: rest, s, i => if a = s then i else jsIndexOfAux rest s (i + 1)

def jsIndexOf (l : List String) (s : String) : Int := jsIndexOfAux l s 0

/-- The mode the loop route issues: the current loop value the bridge reports
    (null when no player; indexOf of null is -1 since null equals no string)
    is looked up in the fixed list and the successor index modulo 3 selects
    the absolute next mode. The dividend currentIndex + 1 is nonnegative, so
    the JS remainder and Int.emod agree, and the index is always in range, so
    the array read never yields undefined; the getD default is dead. -/
def nextLoopMode (current : Option String) : String :=
  let currentIndex : Int :=
    match current with
    | none => -1
    | some s => jsIndexOf loopModes s
  let nextIdx : Int := (currentIndex + 1) % (loopModes.length : Int)
  loopModes.getD nextIdx.toNat ""

/-- What the loop route does in one request: the absolute mode string passed
    to playerctl, and the JSON reply. -/
structure LoopRouteResult where
  issued : String
  status : Nat
  success : Bool
  mode : String
deriving DecidableEq, Repr

def loopRoute (current : Option String) : LoopRouteResult :=
  let m := nextLoopMode current
  { issued := m, status := 200, success := true, mode := m }

/-- Commands issued by n consecutive loop-route calls when the player applies
    each issued absolute mode before the next call reads it back. -/
def cycleCalls : Nat → String → List String
  | 0, _ => []
  | n + 1, mode =>
    let issued := nextLoopMode (some mode)
    issued :: cycleCalls n issued

-- ===========================================================================
-- src/unnamed/part_000: settings and the token manager
-- ===========================================================================

/-- The persisted extension settings the token manager and scheduler read. -/
structure Settings where
  clientId : String
  accessToken : String
  refreshToken : String
  tokenExpiry : Int
  enablePanel : Bool
  useMpris : Bool
deriving DecidableEq, Repr

/-- Outcome of the token-endpoint round trip refreshAccessToken performs:
    a JSON body carrying access_token (with an optional rotated refresh_token
    and expires_in seconds), a JSON body without access_token (the endpoint
    rejected the refresh), or a thrown fetch error. -/
inductive RefreshOutcome where
  | success (newAccess : String) (newRefresh : Option String) (expiresIn : Int)
  | rejected
  | fetchError
deriving DecidableEq, Repr

/-- Result of refreshAccessToken: the settings after the call (persisted via
    saveSettings), the boolean return value, and how many session-expired
    toastr warnings the call surfaced. -/
structure RefreshResult where
  settings : Settings
  ok : Bool
  expiredNotices : Nat
deriving DecidableEq, Repr

/-- refreshAccessToken of src/unnamed/part_000 at time now. JS truthiness
    gates every branch: missing refresh token or client id short-circuits;
    a falsy access_token in the response body (absent or empty) takes the
    warning branch; a falsy rotated refresh_token keeps the stored one. -/
def refreshAccessToken (s : Settings) (now : Int) (o : RefreshOutcome) :
    RefreshResult :=
  if s.refreshToken = "" ∨ s.clientId = "" then
    { settings := s, ok := false, expiredNotices := 0 }
  else
    match o with
    | .success a r e =>
      if a = "" then { settings := s, ok := false, expiredNotices := 1 }
      else
        { settings :=
            { s with
              accessToken := a
              refreshToken := match r with
                | some nr => strOr nr s.refreshToken
                | none => s.refreshToken
              tokenExpiry := now + e * 1000 }
          ok := true
          expiredNotices := 0 }
    | .rejected => { settings := s, ok := false, expiredNotices := 1 }
    | .fetchError => { settings := s, ok := false, expiredNotices := 0 }

/-- Result of getValidToken: the settings afterwards, the returned token
    (null as none), the session-expired notices surfaced, and whether the
    call invoked refreshAccessToken at all. -/
structure TokenResult where
  settings : Settings
  token : Option String
  expiredNotices : Nat
  refreshAttempted : Bool
deriving DecidableEq, Repr

/-- getValidToken of src/unnamed/part_000: falsy access token answers null;
    strictly past tokenExpiry - 60000 it refreshes and answers the refreshed
    token or null; otherwise it answers the stored token untouched. -/
def getValidToken (s : Settings) (now : Int) (o : RefreshOutcome) : TokenResult :=
  if s.accessToken = "" then
    { settings := s, token := none, expiredNotices := 0, refreshAttempted := false }
  else if now > s.tokenExpiry - 60000 then
    let r := refreshAccessToken s now o
    if r.ok then
      { settings := r.settings, token := some r.settings.accessToken
        expiredNotices := r.expiredNotices, refreshAttempted := true }
    else
      { settings := r.settings, token := none
        expiredNotices := r.expiredNotices, refreshAttempted := true }
  else
    { settings := s, token := some s.accessToken, expiredNotices := 0
      refreshAttempted := false }

/-- n consecutive getValidToken calls (as successive poll ticks make them),
    each seeing the settings the previous call left behind and the same
    endpoint outcome; yields the final settings and the total number of
    session-expired notices surfaced. -/
def accessorCalls : Nat → Settings → Int → RefreshOutcome → Settings × Nat
  | 0, s, _, _ => (s, 0)
  | n + 1, s, now, o =>
    let r := getValidToken s now o
    let rest := accessorCalls n r.settings now o
    (rest.1, r.expiredNotices + rest.2)

/-- The explicit disconnect handler: clears the stored token set. -/
def disconnectSpotify (s : Settings) : Settings :=
  { s with accessToken := "", refreshToken := "", tokenExpiry := 0 }

-- ===========================================================================
-- src/unnamed/part_000: the dual-backend fetchPlayerState
-- ===========================================================================

/-- The item object of the Spotify-API-like shape the client circulates. -/
structure TrackItem where
  name : String
  artists : List String
  images : List String
  duration_ms : Nat
deriving DecidableEq, Repr

/-- The Spotify-API-like state object fetchPlayerState yields on success:
    either the remote currently-playing body passed through unchanged, or the
    converted local bridge state. updatePlayerUI reads is_playing, item and
    progress_ms from it. -/
structure ClientState where
  is_playing : Bool
  item : Option TrackItem
  progress_ms : Int
  shuffle : Bool
  loop : String
deriving DecidableEq, Repr

/-- Outcome of the fetch against the local plugin status route: a non-ok
    response, a thrown fetch error, or the JSON body the plugin answered. -/
inductive MprisFetchOutcome where
  | notOk
  | fetchFailed
  | okJson (data : MprisState)
deriving DecidableEq, Repr

/-- fetchMprisState of src/unnamed/part_000: a non-ok response or a thrown
    error yields null; a body with available false yields null; otherwise the
    body is converted to the Spotify-API-like shape. The || 0 guards on the
    numeric fields and || false on shuffle are identities on the numbers and
    booleans of the model; || on artUrl and loop is string truthiness. -/
def fetchMprisState (o : MprisFetchOutcome) : Option ClientState :=
  match o with
  | .notOk => none
  | .fetchFailed => none
  | .okJson data =>
    if !data.available then none
    else
      some
        { is_playing := data.playing
          item := some
            { name := data.title
              artists := [data.artist]
              images := if data.artUrl = "" then [] else [data.artUrl]
              duration_ms := data.duration_ms }
          progress_ms := data.progress_ms
          shuffle := data.shuffle
          loop := strOr data.loop "None" }

/-- Outcome of the fetch against the remote currently-playing endpoint: an
    HTTP response with status and (for 200) a JSON body, or a thrown fetch
    error. -/
inductive RemoteOutcome where
  | httpResp (status : Nat) (body : ClientState)
  | fetchError
deriving DecidableEq, Repr

/-- The remote branch of fetchPlayerState: a falsy token answers null before
    any network call; status 204 answers null (no content, not playing); any
    status other than 200 throws, is caught, and answers null; status 200
    answers the body. -/
def fetchRemoteState (tok : Option String) (o : RemoteOutcome) :
    Option ClientState :=
  match tok with
  | none => none
  | some t =>
    if t = "" then none
    else
      match o with
      | .fetchError => none
      | .httpResp st body =>
        if st = 204 then none
        else if st ≠ 200 then none
        else some body

/-- fetchPlayerState of src/unnamed/part_000: the MPRIS branch when useMpris
    is set, else the remote branch gated by getValidToken. -/
def fetchPlayerState (s : Settings) (now : Int) (ro : RefreshOutcome)
    (remote : RemoteOutcome) (mpris : MprisFetchOutcome) : Option ClientState :=
  if s.useMpris then fetchMprisState mpris
  else fetchRemoteState (getValidToken s now ro).token remote

-- ===========================================================================
-- src/unnamed/part_000: the progress computation of updatePlayerUI
-- ===========================================================================

/-- The progress-bar width computation updatePlayerUI performs: with no state
    or no item the early not-playing return renders no bar; a falsy (zero)
    duration skips the bar; otherwise the width percent written to the bar is
    progress over duration times 100, computed with no clamping anywhere. -/
def updatePlayerUIProgress (data : Option ClientState) : Option ℚ :=
  match data with
  | none => none
  | some d =>
    match d.item with
    | none => none
    | some it =>
      if it.duration_ms = 0 then none
      else some (((d.progress_ms : ℚ) / (it.duration_ms : ℚ)) * 100)

-- ===========================================================================
-- src/unnamed/part_000: the polling scheduler
-- ===========================================================================

/-- The scheduler state: the module-level pollingInterval variable (null as
    none) together with the timer registry of the host (the ids of live
    interval timers and the next fresh id) and a count of the immediate
    updatePlayerUI calls startPolling makes outside the timer. -/
structure SchedulerState where
  pollingInterval : Option Nat
  activeTimers : List Nat
  nextId : Nat
  immediateCalls : Nat
deriving DecidableEq, Repr

/-- The host clearInterval: removes the timer with the given id. -/
def clearIntervalEnv (st : SchedulerState) (id : Nat) : SchedulerState :=
  { st with activeTimers := st.activeTimers.erase id }

/-- startPolling of src/unnamed/part_000: clears the prior timer when one is
    recorded, registers a fresh 1-second interval timer, stores its id, and
    calls updatePlayerUI once immediately. -/
def startPolling (st : SchedulerState) : SchedulerState :=
  let st1 :=
    match st.pollingInterval with
    | some id => clearIntervalEnv st id
    | none => st
  { st1 with
    activeTimers := st1.activeTimers ++ [st1.nextId]
    pollingInterval := some st1.nextId
    nextId := st1.nextId + 1
    immediateCalls := st1.immediateCalls + 1 }

/-- stopPolling of src/unnamed/part_000: clears the recorded timer when one
    is recorded and nulls the variable. -/
def stopPolling (st : SchedulerState) : SchedulerState :=
  let st1 :=
    match st.pollingInterval with
    | some id => clearIntervalEnv st id
    | none => st
  { st1 with pollingInterval := none }

/-- Invariant of every reachable scheduler state: the live timers are exactly
    the one recorded in pollingInterval, or none at all. -/
def SchedulerWf (st : SchedulerState) : Prop :=
  match st.pollingInterval with
  | some id => st.activeTimers = [id]
  | none => st.activeTimers = []

/-- n consecutive startPolling calls. -/
def startIter : Nat → SchedulerState → SchedulerState
  | 0, st => st
  | n + 1, st => startIter n (startPolling st)

/-- Timer-driven fetch invocations over a window of w poll periods: each live
    interval timer fires once per period and each firing runs one
    updatePlayerUI fetch. -/
def timerTicksOver (w : Nat) (st : SchedulerState) : Nat :=
  w * st.activeTimers.length

-- ===========================================================================
-- Helper lemmas
-- ===========================================================================

theorem nextLoopMode_mem (c : Option String) : nextLoopMode c ∈ loopModes := by
  cases c with
  | none => decide
  | some s =>
    by_cases h1 : "None" = s
    · subst h1; decide
    · by_cases h2 : "Track" = s
      · subst h2; decide
      · by_cases h3 : "Playlist" = s
        · subst h3; decide
        · simp [nextLoopMode, jsIndexOf, jsIndexOfAux, loopModes, h1, h2, h3]

theorem nextLoopMode_unknown (c : Option String)
    (h : ∀ s, c = some s → s ∉ loopModes) : nextLoopMode c = "None" := by
  cases c with
  | none => decide
  | some s =>
    have hs := h s rfl
    simp only [loopModes, List.mem_cons, List.not_mem_nil, or_false] at hs
    push_neg at hs
    have e1 : ¬("None" = s) := fun he => hs.1 he.symm
    have e2 : ¬("Track" = s) := fun he => hs.2.1 he.symm
    have e3 : ¬("Playlist" = s) := fun he => hs.2.2 he.symm
    simp only [nextLoopMode, jsIndexOf, jsIndexOfAux, loopModes,
      if_neg e1, if_neg e2, if_neg e3]
    decide

-- ===========================================================================
-- Claim theorems
-- ===========================================================================

/-- C6 (confirmed): the cycle-repeat route reads the current repeat mode and
    issues the absolute successor in the fixed cycle None, Track, Playlist,
    None; what it issues is always one of the three absolute mode names (never
    a relative verb), and three consecutive calls starting from mode None
    issue exactly the command sequence Track, Playlist, None. -/
theorem cycleRepeat_fixed_cycle :
    (loopRoute (some "None")).issued = "Track"
    ∧ (loopRoute (some "Track")).issued = "Playlist"
    ∧ (loopRoute (some "Playlist")).issued = "None"
    ∧ cycleCalls 3 "None" = ["Track", "Playlist", "None"]
    ∧ (∀ c : Option String, (loopRoute c).issued ∈ loopModes) :=
  ⟨rfl, rfl, rfl, rfl, fun c => nextLoopMode_mem c⟩

/-- C9 (confirmed): every parameterless POST control route answers HTTP 200
    with success true no matter what the bridge call produced; in particular
    the reply after a failed bridge call (tool absent, no player running,
    null result silently discarded) is identical to the reply after a
    delivered command, so a caller cannot distinguish the two. -/
theorem controlRoute_always_success (e : ControlEndpoint) (out : Option String) :
    (controlRoute e out).2 = { status := 200, success := true }
    ∧ (controlRoute e none).2 = (controlRoute e out).2 :=
  ⟨rfl, rfl⟩

/-- C10 (confirmed): when the loop-route read of the current mode fails
    (null) or reports any value outside the fixed mode list, the index lookup
    yields -1, so the route issues the absolute mode None and answers success
    with mode None. -/
theorem loopRoute_unknown_current (c : Option String)
    (h : ∀ s, c = some s → s ∉ loopModes) :
    loopRoute c = { issued := "None", status := 200, success := true, mode := "None" } := by
  have hm := nextLoopMode_unknown c h
  simp [loopRoute, hm]

/-- C10 witness: a read reporting the out-of-list value Shuffle issues None
    and answers success with mode None. -/
theorem loopRoute_unknown_current_witness :
    loopRoute (some "Shuffle") =
      { issued := "None", status := 200, success := true, mode := "None" } :=
  loopRoute_unknown_current (some "Shuffle")
    (by intro s hs; injection hs with h; subst h; decide)

theorem startPolling_wf (st : SchedulerState) (h : SchedulerWf st) :
    SchedulerWf (startPolling st)
    ∧ (startPolling st).activeTimers.length = 1 := by
  unfold SchedulerWf at h
  cases hp : st.pollingInterval with
  | none =>
    rw [hp] at h
    constructor
    · unfold SchedulerWf startPolling
      rw [hp]
      simp [h]
    · unfold startPolling
      rw [hp]
      simp [h]
  | some id =>
    rw [hp] at h
    constructor
    · unfold SchedulerWf startPolling clearIntervalEnv
      rw [hp]
      simp [h]
    · unfold startPolling clearIntervalEnv
      rw [hp]
      simp [h]

theorem startIter_wf (n : Nat) (st : SchedulerState) (h : SchedulerWf st) :
    SchedulerWf (startIter n st) := by
  induction n generalizing st with
  | zero => exact h
  | succ k ih => exact ih (startPolling st) (startPolling_wf st h).1

theorem stopPolling_empty (st : SchedulerState) (h : SchedulerWf st) :
    (stopPolling st).activeTimers = [] := by
  unfold SchedulerWf at h
  cases hp : st.pollingInterval with
  | none =>
    rw [hp] at h
    unfold stopPolling
    rw [hp]
    simp [h]
  | some id =>
    rw [hp] at h
    unfold stopPolling clearIntervalEnv
    rw [hp]
    simp [h]

/-- C7 (confirmed): startPolling on a running scheduler clears the prior
    timer before registering the new one, so after any sequence of start
    calls exactly one interval timer is live and the timer-driven fetch
    invocations over a window of w poll periods number exactly w (the window
    divided by the period), not a multiple; and once stopPolling returns, no
    timer is live, so no further timer-driven state callbacks fire. -/
theorem polling_lifecycle (st : SchedulerState) (n w : Nat) (h : SchedulerWf st) :
    (startIter (n + 1) st).activeTimers.length = 1
    ∧ timerTicksOver w (startIter (n + 1) st) = w
    ∧ (stopPolling st).activeTimers.length = 0
    ∧ timerTicksOver w (stopPolling st) = 0 := by
  have hlen : (startIter (n + 1) st).activeTimers.length = 1 := by
    induction n generalizing st with
    | zero => exact (startPolling_wf st h).2
    | succ k ih =>
      have h1 := (startPolling_wf st h).1
      exact ih (startPolling st) h1
  have hstop := stopPolling_empty st h
  refine ⟨hlen, ?_, ?_, ?_⟩
  · unfold timerTicksOver
    rw [hlen, Nat.mul_one]
  · rw [hstop]
    rfl
  · unfold timerTicksOver
    rw [hstop]
    rfl

/-- C7 witness: from the fresh scheduler state, two consecutive start calls
    leave one live timer, five poll periods drive five fetches, and after a
    stop no timer remains and no callbacks fire. -/
theorem polling_lifecycle_witness :
    (startIter 2 ⟨none, [], 1, 0⟩).activeTimers.length = 1
    ∧ timerTicksOver 5 (startIter 2 ⟨none, [], 1, 0⟩) = 5
    ∧ (stopPolling ⟨none, [], 1, 0⟩).activeTimers.length = 0
    ∧ timerTicksOver 5 (stopPolling ⟨none, [], 1, 0⟩) = 0 :=
  polling_lifecycle ⟨none, [], 1, 0⟩ 1 5 rfl

/-- C8 concrete metadata: the bridge reports title Song A, artist Band and a
    length of 200000000 microseconds. -/
def mC8 : ParsedMeta :=
  { title := "Song A", artist := "Band", album := "", artUrl := ""
    length := "200000000" }

/-- C8 concrete bridge round: parseable structured metadata, status Playing,
    position 30.0 seconds. -/
def envC8 : BridgeEnv :=
  { metadataFormatOut := some "meta"
    parseMeta := fun _ => some mC8
    titleOut := none, artistOut := none, albumOut := none, artUrlOut := none
    statusOut := some "Playing", positionOut := some "30.0"
    shuffleOut := none, loopOut := none }

/-- C8 (confirmed): with parseable metadata the local client converts the
    position reported by the tool (seconds, a decimal read by parseFloat) to
    milliseconds as the floor of seconds times 1000, and the reported length
    (microseconds, read by parseInt) to milliseconds as the floor division by
    1000, while reporting available true and playing exactly when the status
    read is Playing. -/
theorem getPlayerState_numeric (env : BridgeEnv) (raw : String) (m : ParsedMeta)
    (hraw : env.metadataFormatOut = some raw) (hne : raw ≠ "")
    (hm : env.parseMeta raw = some m) :
    (getPlayerState env).progress_ms = ⌊jsParseFloat (jsOrOpt env.positionOut "0") * 1000⌋
    ∧ (getPlayerState env).duration_ms = jsParseInt (strOr m.length "0") / 1000
    ∧ (getPlayerState env).available = true
    ∧ (getPlayerState env).playing = (env.statusOut == some "Playing") := by
  simp [getPlayerState, hraw, hne, hm]

/-- C8 witness: the bridge output title Song A, artist Band, status Playing,
    position 30.0, length 200000000 produces the canonical available, playing
    state with position 30000 ms and duration 200000 ms. -/
theorem getPlayerState_numeric_witness :
    (getPlayerState envC8).progress_ms = 30000
    ∧ (getPlayerState envC8).duration_ms = 200000
    ∧ (getPlayerState envC8).available = true
    ∧ (getPlayerState envC8).playing = true
    ∧ (getPlayerState envC8).title = "Song A"
    ∧ (getPlayerState envC8).artist = "Band" := by
  have h := getPlayerState_numeric envC8 "meta" mC8 rfl (by decide) rfl
  have hp : jsParseFloat (jsOrOpt envC8.positionOut "0") = 30 := by
    have ht : takeDigits (jsOrOpt envC8.positionOut "0").toList = (['3', '0'], ['.', '0']) := by
      decide
    have hf : takeDigits ['0'] = (['0'], []) := by decide
    have h1 : digitsVal ['3', '0'] = 30 := by decide
    have h2 : digitsVal ['0'] = 0 := by decide
    simp only [jsParseFloat, ht, hf, h1, h2]
    norm_num
  refine ⟨h.1.trans ?_, h.2.1.trans ?_, h.2.2.1, h.2.2.2.trans ?_, ?_, ?_⟩
  · rw [hp]
    have h30 : ((30 : ℚ) * 1000) = ((30000 : ℤ) : ℚ) := by norm_num
    rw [h30, Int.floor_intCast]
  · decide
  · decide
  · decide
  · decide

/-- A stored token set whose expiry boundary tokenExpiry - 60000 falls at
    time 0. -/
def s4 : Settings :=
  { clientId := "cid", accessToken := "atok", refreshToken := "rtok"
    tokenExpiry := 60000, enablePanel := true, useMpris := false }

/-- C4 counterexample: at the exact boundary instant now = tokenExpiry -
    60000 the claim demands that any accessor call triggers a refresh, but
    getValidToken compares strictly and returns the stored token with no
    refresh attempt. -/
theorem getValidToken_boundary_counterexample :
    (getValidToken s4 0 RefreshOutcome.rejected).refreshAttempted = false
    ∧ (getValidToken s4 0 RefreshOutcome.rejected).token = some "atok" := by
  decide

/-- C4 (amended): with a stored access token, getValidToken returns the
    stored token unchanged with no refresh attempt exactly when
    now ≤ tokenExpiry - 60000 (the comparison is strict, so the boundary
    instant itself still uses the stored token); only strictly past the
    boundary does an accessor call invoke the refresh, returning the
    refreshed token on success and none on failure; and two calls both made
    at or before the boundary return the same token with no refresh in
    between. -/
theorem getValidToken_boundary (s : Settings) (now now2 : Int)
    (o o2 : RefreshOutcome) (ha : s.accessToken ≠ "") :
    (now ≤ s.tokenExpiry - 60000 →
      getValidToken s now o =
        { settings := s, token := some s.accessToken, expiredNotices := 0
          refreshAttempted := false })
    ∧ (now > s.tokenExpiry - 60000 →
        (getValidToken s now o).refreshAttempted = true
        ∧ ((getValidToken s now o).token = none
            ∨ (getValidToken s now o).token =
                some (refreshAccessToken s now o).settings.accessToken))
    ∧ (now ≤ s.tokenExpiry - 60000 → now2 ≤ s.tokenExpiry - 60000 →
        (getValidToken (getValidToken s now o).settings now2 o2).token
            = some s.accessToken
        ∧ (getValidToken (getValidToken s now o).settings now2 o2).refreshAttempted
            = false) := by
  have hfresh : ∀ t : Int, t ≤ s.tokenExpiry - 60000 →
      getValidToken s t o =
        { settings := s, token := some s.accessToken, expiredNotices := 0
          refreshAttempted := false } := by
    intro t ht
    unfold getValidToken
    rw [if_neg ha, if_neg (by exact not_lt.mpr ht)]
  refine ⟨hfresh now, ?_, ?_⟩
  · intro hlate
    unfold getValidToken
    rw [if_neg ha, if_pos hlate]
    by_cases hok : (refreshAccessToken s now o).ok
    · rw [if_pos hok]
      exact ⟨rfl, Or.inr rfl⟩
    · rw [if_neg hok]
      exact ⟨rfl, Or.inl rfl⟩
  · intro h1 h2
    rw [hfresh now h1]
    have h2c : getValidToken s now2 o2 =
        { settings := s, token := some s.accessToken, expiredNotices := 0
          refreshAttempted := false } := by
      unfold getValidToken
      rw [if_neg ha, if_neg (by exact not_lt.mpr h2)]
    exact ⟨by rw [h2c], by rw [h2c]⟩

/-- C4 witness: with the s4 token set both calls at times before the
    boundary return the stored token unchanged with no refresh attempt. -/
theorem getValidToken_boundary_witness :
    getValidToken s4 (-5) RefreshOutcome.rejected =
      { settings := s4, token := some s4.accessToken, expiredNotices := 0
        refreshAttempted := false }
    ∧ (getValidToken (getValidToken s4 (-5) RefreshOutcome.rejected).settings
          (-3) RefreshOutcome.rejected).token = some s4.accessToken := by
  have h := getValidToken_boundary s4 (-5) (-3)
    RefreshOutcome.rejected RefreshOutcome.rejected (by decide)
  exact ⟨h.1 (by decide), (h.2.2 (by decide) (by decide)).1⟩

/-- A connected token set that has already passed its refresh boundary at
    time 1000000. -/
def s3 : Settings :=
  { clientId := "cid", accessToken := "atok", refreshToken := "rtok"
    tokenExpiry := 0, enablePanel := true, useMpris := false }

/-- C3 counterexample: with an expired token set two consecutive accessor
    calls, each seeing the token endpoint reject the refresh, surface one
    session-expired notice each (two in total, one per poll tick, not one per
    failure); the second call does attempt another refresh and still holds
    the same stored refresh token, so no disconnected state was entered. -/
theorem refresh_rejected_counterexample :
    (getValidToken s3 1000000 RefreshOutcome.rejected).expiredNotices = 1
    ∧ (getValidToken (getValidToken s3 1000000 RefreshOutcome.rejected).settings
        1000000 RefreshOutcome.rejected).expiredNotices = 1
    ∧ (getValidToken (getValidToken s3 1000000 RefreshOutcome.rejected).settings
        1000000 RefreshOutcome.rejected).refreshAttempted = true
    ∧ (getValidToken s3 1000000 RefreshOutcome.rejected).settings.refreshToken = "rtok"
    ∧ (accessorCalls 2 s3 1000000 RefreshOutcome.rejected).2 = 2 := by
  decide

/-- C3 (amended): a rejected refresh surfaces exactly one session-expired
    notice per refresh attempt, but the token manager does not transition to
    a disconnected state: the stored token set is left unchanged, so every
    subsequent accessor call past the boundary retries the refresh with the
    same stored refresh token and surfaces one more notice on each rejection
    (n polls surface n notices). Only the explicit disconnect handler clears
    the tokens, after which accessor calls attempt nothing and surface
    nothing. -/
theorem refresh_rejected_notices (s : Settings) (now : Int) (n : Nat)
    (ha : s.accessToken ≠ "") (hr : s.refreshToken ≠ "") (hc : s.clientId ≠ "")
    (hexp : now > s.tokenExpiry - 60000) :
    getValidToken s now RefreshOutcome.rejected =
      { settings := s, token := none, expiredNotices := 1, refreshAttempted := true }
    ∧ accessorCalls n s now RefreshOutcome.rejected = (s, n)
    ∧ (getValidToken (disconnectSpotify s) now RefreshOutcome.rejected).refreshAttempted = false
    ∧ (getValidToken (disconnectSpotify s) now RefreshOutcome.rejected).expiredNotices = 0 := by
  have hrj : refreshAccessToken s now RefreshOutcome.rejected =
      { settings := s, ok := false, expiredNotices := 1 } := by
    unfold refreshAccessToken
    rw [if_neg (by
      intro hor
      cases hor with
      | inl h => exact hr h
      | inr h => exact hc h)]
  have hone : getValidToken s now RefreshOutcome.rejected =
      { settings := s, token := none, expiredNotices := 1, refreshAttempted := true } := by
    unfold getValidToken
    rw [if_neg ha, if_pos hexp, hrj]
    rfl
  have hdis : getValidToken (disconnectSpotify s) now RefreshOutcome.rejected =
      { settings := disconnectSpotify s, token := none, expiredNotices := 0
        refreshAttempted := false } := by
    unfold getValidToken disconnectSpotify
    rw [if_pos rfl]
  refine ⟨hone, ?_, by rw [hdis], by rw [hdis]⟩
  induction n with
  | zero => rfl
  | succ k ih =>
    unfold accessorCalls
    rw [hone]
    simp only [ih]
    rw [Nat.add_comm]

/-- C3 witness: the expired s3 token set past its boundary, with the endpoint
    rejecting, surfaces one notice on the call, two notices over two polls
    with unchanged settings, and nothing after an explicit disconnect. -/
theorem refresh_rejected_notices_witness :
    getValidToken s3 1000000 RefreshOutcome.rejected =
      { settings := s3, token := none, expiredNotices := 1, refreshAttempted := true }
    ∧ accessorCalls 2 s3 1000000 RefreshOutcome.rejected = (s3, 2)
    ∧ (getValidToken (disconnectSpotify s3) 1000000 RefreshOutcome.rejected).expiredNotices = 0 := by
  have h := refresh_rejected_notices s3 1000000 2
    (by decide) (by decide) (by decide) (by decide)
  exact ⟨h.1, h.2.1, h.2.2.2⟩

/-- A connected remote-mode settings object holding a token valid far past
    time 0. -/
def s1r : Settings :=
  { clientId := "cid", accessToken := "atok", refreshToken := "rtok"
    tokenExpiry := 10000000, enablePanel := true, useMpris := false }

/-- The same credentials with the local MPRIS backend selected. -/
def s1l : Settings :=
  { clientId := "cid", accessToken := "atok", refreshToken := "rtok"
    tokenExpiry := 10000000, enablePanel := true, useMpris := true }

/-- A bridge round in which the metadata query produced no output: the tool
    is absent, exited non-zero, or no player is running. -/
def envNoPlayer : BridgeEnv :=
  { metadataFormatOut := none
    parseMeta := fun _ => none
    titleOut := none, artistOut := none, albumOut := none, artUrlOut := none
    statusOut := none, positionOut := none, shuffleOut := none, loopOut := none }

/-- A placeholder body for responses whose body the code never reads. -/
def emptyBody : ClientState :=
  { is_playing := false, item := none, progress_ms := 0, shuffle := false
    loop := "" }

/-- C1 counterexample: on HTTP 204 the remote branch of fetchPlayerState
    yields null, not any object at all, and the local branch with no running
    player (the plugin answers its available:false object, which the client
    maps to null) also yields null; so neither case produces an object
    satisfying available:false at the fetchPlayerState boundary. -/
theorem fetch_unavailable_counterexample :
    (fetchPlayerState s1r 0 RefreshOutcome.rejected
        (RemoteOutcome.httpResp 204 emptyBody)
        (MprisFetchOutcome.okJson (getPlayerState envNoPlayer))).isSome = false
    ∧ (fetchPlayerState s1l 0 RefreshOutcome.rejected
        (RemoteOutcome.httpResp 204 emptyBody)
        (MprisFetchOutcome.okJson (getPlayerState envNoPlayer))).isSome = false := by
  decide

/-- C1 (amended): a remote fetch answered HTTP 204 and a local fetch made
    while no player is running both yield null (none) from fetchPlayerState -
    the same unavailable sentinel in both cases, not an error and not a
    backend-specific shape; no available:false object survives to this
    boundary (the client maps the plugin's available:false reply to null). -/
theorem fetch_unavailable_agree (sR sL : Settings) (now : Int)
    (ro : RefreshOutcome) (body : ClientState) (env : BridgeEnv)
    (hR : sR.useMpris = false) (hL : sL.useMpris = true)
    (henv : env.metadataFormatOut = none) :
    fetchPlayerState sR now ro (RemoteOutcome.httpResp 204 body)
        (MprisFetchOutcome.okJson (getPlayerState env)) = none
    ∧ fetchPlayerState sL now ro (RemoteOutcome.httpResp 204 body)
        (MprisFetchOutcome.okJson (getPlayerState env)) = none := by
  constructor
  · unfold fetchPlayerState
    rw [if_neg (by rw [hR]; exact Bool.false_ne_true)]
    unfold fetchRemoteState
    cases (getValidToken sR now ro).token with
    | none => rfl
    | some t =>
      by_cases ht : t = ""
      · simp [ht]
      · simp [ht]
  · unfold fetchPlayerState
    rw [if_pos hL]
    unfold fetchMprisState getPlayerState
    rw [henv]
    rfl

/-- C1 witness: at the concrete connected settings, the 204-answered remote
    fetch and the no-player local fetch both yield none. -/
theorem fetch_unavailable_agree_witness :
    fetchPlayerState s1r 0 RefreshOutcome.rejected
        (RemoteOutcome.httpResp 204 emptyBody)
        (MprisFetchOutcome.okJson (getPlayerState envNoPlayer)) = none
    ∧ fetchPlayerState s1l 0 RefreshOutcome.rejected
        (RemoteOutcome.httpResp 204 emptyBody)
        (MprisFetchOutcome.okJson (getPlayerState envNoPlayer)) = none :=
  fetch_unavailable_agree s1r s1l 0 RefreshOutcome.rejected emptyBody envNoPlayer
    rfl rfl rfl

/-- A bridge round whose metadata query produced non-empty output that
    JSON.parse rejects (special characters corrupted the structured format),
    with every per-field fallback query failing too. -/
def envMalformed : BridgeEnv :=
  { metadataFormatOut := some "not-json"
    parseMeta := fun _ => none
    titleOut := none, artistOut := none, albumOut := none, artUrlOut := none
    statusOut := none, positionOut := none, shuffleOut := none, loopOut := none }

/-- C5 counterexample: malformed (non-empty, unparseable) metadata output
    does not yield available:false - the per-field fallback path produces an
    available:true state with defaulted fields. -/
theorem getPlayerState_malformed_counterexample :
    (getPlayerState envMalformed).available = true
    ∧ (getPlayerState envMalformed).title = "Unknown" := by
  decide

/-- C5 (amended): the local state query is a total function of the bridge
    outputs, so no process-level failure propagates as an exception: absent
    metadata output (tool missing, non-zero exit, no player running) and
    empty output both yield the available:false object; malformed but
    non-empty output instead takes the per-field fallback and yields an
    available:true state with defaulted fields. -/
theorem getPlayerState_never_raises (env : BridgeEnv) :
    (env.metadataFormatOut = none → getPlayerState env = unavailableState)
    ∧ (env.metadataFormatOut = some "" → getPlayerState env = unavailableState)
    ∧ (∀ raw, env.metadataFormatOut = some raw → raw ≠ "" →
        env.parseMeta raw = none →
        (getPlayerState env).available = true
        ∧ (getPlayerState env).title
            = strOr (jsOrOpt env.titleOut "Unknown") "Unknown") := by
  refine ⟨?_, ?_, ?_⟩
  · intro h
    unfold getPlayerState
    rw [h]
  · intro h
    unfold getPlayerState
    rw [h]
    rfl
  · intro raw hraw hne hparse
    unfold getPlayerState
    rw [hraw]
    simp only [if_neg hne, hparse]
    exact ⟨trivial, trivial⟩

/-- C5 witness: the no-output round yields the available:false object and
    the malformed round yields an available:true state. -/
theorem getPlayerState_never_raises_witness :
    getPlayerState envNoPlayer = unavailableState
    ∧ (getPlayerState envMalformed).available = true :=
  ⟨(getPlayerState_never_raises envNoPlayer).1 rfl,
    ((getPlayerState_never_raises envMalformed).2.2 "not-json" rfl
      (by decide) rfl).1⟩

/-- A state with a stale position: 200000 ms into a 100000 ms track. -/
def staleState : ClientState :=
  { is_playing := true
    item := some
      { name := "Song A", artists := ["Band"], images := [], duration_ms := 100000 }
    progress_ms := 200000, shuffle := false, loop := "None" }

/-- C2 counterexample: at duration 100000 ms and position 200000 ms the
    consumer derives a width of 200 percent - a ratio of 2, not clamped to
    the unit interval. -/
theorem progress_unclamped_counterexample :
    updatePlayerUIProgress (some staleState) = some 200
    ∧ ¬ ((200 : ℚ) / 100 ≤ 1) := by
  constructor
  · norm_num [updatePlayerUIProgress, staleState]
  · norm_num

/-- C2 (amended): a zero duration renders no progress bar, as claimed; but
    for a positive duration the consumer derives the raw percent
    position over duration times 100 with no clamping, so the derived ratio
    exceeds 1 (the percent exceeds 100) whenever the position exceeds the
    duration. -/
theorem updatePlayerUI_progress_ratio (d : ClientState) (it : TrackItem)
    (hit : d.item = some it) :
    (it.duration_ms = 0 → updatePlayerUIProgress (some d) = none)
    ∧ (it.duration_ms ≠ 0 →
        updatePlayerUIProgress (some d)
          = some (((d.progress_ms : ℚ) / (it.duration_ms : ℚ)) * 100))
    ∧ (0 < it.duration_ms → (it.duration_ms : Int) < d.progress_ms →
        ∃ q, updatePlayerUIProgress (some d) = some q ∧ 100 < q) := by
  have hbase : updatePlayerUIProgress (some d)
      = if it.duration_ms = 0 then none
        else some (((d.progress_ms : ℚ) / (it.duration_ms : ℚ)) * 100) := by
    simp only [updatePlayerUIProgress, hit]
  refine ⟨?_, ?_, ?_⟩
  · intro h0
    rw [hbase, if_pos h0]
  · intro h0
    rw [hbase, if_neg h0]
  · intro hpos hlt
    refine ⟨((d.progress_ms : ℚ) / (it.duration_ms : ℚ)) * 100, ?_, ?_⟩
    · rw [hbase, if_neg (Nat.pos_iff_ne_zero.mp hpos)]
    · have hb : (0 : ℚ) < (it.duration_ms : ℚ) := by exact_mod_cast hpos
      have hba : (it.duration_ms : ℚ) < (d.progress_ms : ℚ) := by exact_mod_cast hlt
      have h1 : (1 : ℚ) < (d.progress_ms : ℚ) / (it.duration_ms : ℚ) :=
        (one_lt_div hb).mpr hba
      have h2 := mul_lt_mul_of_pos_right h1 (show (0 : ℚ) < 100 by norm_num)
      simpa using h2

/-- C2 witness: on the stale state the rendered percent exceeds 100. -/
theorem updatePlayerUI_progress_ratio_witness :
    ∃ q, updatePlayerUIProgress (some staleState) = some q ∧ 100 < q :=
  (updatePlayerUI_progress_ratio staleState
      { name := "Song A", artists := ["Band"], images := [], duration_ms := 100000 }
      rfl).2.2 (by decide) (by decide)
